import Mathlib

/-!
Shallow embedding of the JDWP session layer of `src/jdwp/jdwp_main.cc`
(namespace art::JDWP): serial counters, the packet sink, location equality,
LastDebuggerActivity, JdwpState::Create, teardown, the reset path, and the
protocol thread loop JdwpState::Run, together with theorems settling the
specification claims about them.
-/

/-- Wraparound modulus of the unsigned 32-bit serial counters. -/
def kUint32Mod : Nat := 4294967296

/-- The two serial counters of a JdwpState (jdwp_main.cc:99-100). Both are
uint32_t fields; values are kept below 2 ^ 32. -/
structure Serials where
  requestSerial : Nat
  eventSerial : Nat
deriving Repr, DecidableEq

/-- Initial counter values set by the JdwpState constructor:
requestSerial(0x10000000), eventSerial(0x20000000). -/
def initSerials : Serials := { requestSerial := 0x10000000, eventSerial := 0x20000000 }

/-- JdwpState::NextRequestSerial (jdwp_main.cc:73-76): under serial_lock_,
`return requestSerial++;` — returns the pre-increment value and stores the
incremented value, wrapping at 2 ^ 32 as uint32_t does. -/
def NextRequestSerial (s : Serials) : Nat × Serials :=
  (s.requestSerial, { s with requestSerial := (s.requestSerial + 1) % kUint32Mod })

/-- JdwpState::NextEventSerial (jdwp_main.cc:82-85): under serial_lock_,
`return eventSerial++;`. -/
def NextEventSerial (s : Serials) : Nat × Serials :=
  (s.eventSerial, { s with eventSerial := (s.eventSerial + 1) % kUint32Mod })

/-- Which of the two serial getters a caller invokes. -/
inductive SerialCall
  | req
  | evt
deriving Repr, DecidableEq

/-- Run a sequence of serial-number calls from a given counter state,
collecting the values returned by NextRequestSerial and by NextEventSerial
(in call order, per counter) and the final counter state. -/
def runSerials : List SerialCall → Serials → List Nat × List Nat × Serials
  | [], s => ([], [], s)
  | SerialCall.req :: rest, s =>
    ((NextRequestSerial s).1 :: (runSerials rest (NextRequestSerial s).2).1,
     (runSerials rest (NextRequestSerial s).2).2.1,
     (runSerials rest (NextRequestSerial s).2).2.2)
  | SerialCall.evt :: rest, s =>
    ((runSerials rest (NextEventSerial s).2).1,
     (NextEventSerial s).1 :: (runSerials rest (NextEventSerial s).2).2.1,
     (runSerials rest (NextEventSerial s).2).2.2)

/-- The JDWP type tags that appear in a JdwpLocation. -/
inductive JdwpTypeTag
  | TT_CLASS
  | TT_INTERFACE
  | TT_ARRAY
deriving Repr, DecidableEq

/-- A JDWP code location: type tag, class id, method id and code index
(ids are 64-bit values, embedded as Nat). -/
structure JdwpLocation where
  typeTag : JdwpTypeTag
  classId : Nat
  methodId : Nat
  idx : Nat
deriving Repr, DecidableEq

/-- operator==(const JdwpLocation&, const JdwpLocation&)
(jdwp_main.cc:460-463): conjunction of the four field comparisons. -/
def jdwpLocationEq (lhs rhs : JdwpLocation) : Bool :=
  lhs.idx == rhs.idx && lhs.methodId == rhs.methodId &&
    lhs.classId == rhs.classId && lhs.typeTag == rhs.typeTag

/-- operator!=(const JdwpLocation&, const JdwpLocation&)
(jdwp_main.cc:465-467): `return !(lhs == rhs);`. -/
def jdwpLocationNe (lhs rhs : JdwpLocation) : Bool :=
  !(jdwpLocationEq lhs rhs)

/-- JdwpState::LastDebuggerActivity (jdwp_main.cc:416-436). The
Dbg::IsDebuggerConnected() answer, the stored lastActivityWhen value and the
MilliTime() reading are passed as arguments; CHECK_GE(now, last) is
reflected by the hypothesis `last ≤ now` on the theorems. -/
def LastDebuggerActivity (connected : Bool) (lastActivityWhen : Int) (now : Int) : Int :=
  if !connected then -1
  else if lastActivityWhen = 0 then 0
  else now - lastActivityWhen

/-- The transport kinds of JdwpTransportType (with kJdwpTransportUnknown the
value the Create switch has no case for). -/
inductive JdwpTransportType
  | kJdwpTransportUnknown
  | kJdwpTransportSocket
  | kJdwpTransportAndroidAdb
deriving Repr, DecidableEq

/-- The JdwpOptions fields JdwpState::Create and Run consult. -/
structure JdwpOptions where
  transport : JdwpTransportType
  server : Bool
  suspend : Bool
deriving Repr, DecidableEq

/-- Outcome of JdwpState::Create: LOG(FATAL) on an unknown transport kind,
NULL (with or without the "JDWP connection failed" LOG(ERROR)), or a released
non-null JdwpState. -/
inductive CreateResult
  | fatal
  | nullNoSession (loggedConnectionFailed : Bool)
  | session
deriving Repr, DecidableEq

/-- JdwpState::Create (jdwp_main.cc:117-194). External answers are passed as
arguments: `haveAndroidOS` (the HAVE_ANDROID_OS preprocessor switch),
`startupOk` (the transport startup call), and `activeAfterWait` (what
IsActive() reports once the attach_cond_ wait returns, consulted only when
options->suspend is set). -/
def Create (options : JdwpOptions) (haveAndroidOS startupOk activeAfterWait : Bool) :
    CreateResult :=
  match options.transport with
  | JdwpTransportType.kJdwpTransportUnknown => CreateResult.fatal
  | JdwpTransportType.kJdwpTransportAndroidAdb =>
    if !haveAndroidOS then CreateResult.fatal
    else if !startupOk then CreateResult.nullNoSession false
    else if options.suspend then
      if !activeAfterWait then CreateResult.nullNoSession true else CreateResult.session
    else CreateResult.session
  | JdwpTransportType.kJdwpTransportSocket =>
    if !startupOk then CreateResult.nullNoSession false
    else if options.suspend then
      if !activeAfterWait then CreateResult.nullNoSession true else CreateResult.session
    else CreateResult.session

/-- The JdwpState fields the destructor reads and writes, with `transportBound`
for `transport != NULL`, `netState` for `netState != NULL` and `connected`
for what the transport isConnected call reports. -/
structure TeardownState where
  transportBound : Bool
  netState : Bool
  connected : Bool
  debug_thread_started : Bool
  run : Bool
deriving Repr, DecidableEq

/-- What one run of the destructor did and left behind. -/
structure TeardownResult where
  final : TeardownState
  postedVMDeath : Bool
  shutdownCalled : Bool
  joinWarning : Bool
  freeCalled : Bool
  checkPassed : Bool
deriving Repr, DecidableEq

/-- JdwpState::~JdwpState (jdwp_main.cc:222-249): when a transport is bound,
post VM death if connected, shut the net down, clear `run` and join when the
debug thread was started (a failed join only sets the warning), free the
transport and null netState; in all cases CHECK(netState == NULL) at the end.
`joinOk` is whether pthread_join returned 0. -/
def destructorJdwpState (s : TeardownState) (joinOk : Bool) : TeardownResult :=
  if s.transportBound then
    let final : TeardownState :=
      { s with netState := false
               run := if s.debug_thread_started then false else s.run }
    { final := final
      postedVMDeath := s.connected
      shutdownCalled := true
      joinWarning := s.debug_thread_started && !joinOk
      freeCalled := true
      checkPassed := !final.netState }
  else
    { final := s
      postedVMDeath := false
      shutdownCalled := false
      joinWarning := false
      freeCalled := false
      checkPassed := !s.netState }

/-- The operations a packet-sink call performs, in order. -/
inductive SinkOp
  | lockSocket
  | unlockSocket
  | syscallWrite (sock : Int) (len : Nat)
  | syscallWritev (sock : Int) (iovCount : Nat) (totalLen : Nat)
deriving Repr, DecidableEq

/-- Is this sink operation an underlying write? -/
def isWriteOp : SinkOp → Bool
  | SinkOp.syscallWrite _ _ => true
  | SinkOp.syscallWritev _ _ _ => true
  | _ => false

/-- JdwpNetStateBase::writePacket (jdwp_main.cc:48-51): take socket_lock_,
issue one write(clientSock, buffer, length) for the whole expand buffer and
return the ssize_t result of that write unchanged. The result the OS write gives
is the argument `writeResult`. -/
def writePacket (clientSock : Int) (replyLen : Nat) (writeResult : Int) :
    List SinkOp × Int :=
  ([SinkOp.lockSocket, SinkOp.syscallWrite clientSock replyLen, SinkOp.unlockSocket],
   writeResult)

/-- JdwpNetStateBase::writeBufferedPacket (jdwp_main.cc:56-59): take
socket_lock_, issue one writev(clientSock, iov, iov_count) covering every
buffer of the vector and return its ssize_t result unchanged. -/
def writeBufferedPacket (clientSock : Int) (iovLens : List Nat) (writevResult : Int) :
    List SinkOp × Int :=
  ([SinkOp.lockSocket,
    SinkOp.syscallWritev clientSock iovLens.length iovLens.sum,
    SinkOp.unlockSocket],
   writevResult)

/-- The session-level state the reset path touches: the debug thread id, the
event-in-progress marker, the registered event list (ids), and ddmActive. -/
structure SessionEvState where
  debugThreadId : Nat
  eventThreadId : Nat
  eventList : List Nat
  ddmActive : Bool
deriving Repr, DecidableEq

/-- Modelled from the spec: `UnregisterAll` is defined in the event module,
which is not among these sources; section 4.6 of the spec has the reset
"clear event list". It unregisters every listed event request and does not
touch the thread identifiers. -/
def UnregisterAll (s : SessionEvState) : SessionEvState :=
  { s with eventList := [] }

/-- JdwpState::ResetState (jdwp_main.cc:203-217): UnregisterAll, then
CHECK(eventList == NULL), then warn (LOG + DCHECK) if eventThreadId is
nonzero. Returns the new state and whether the warning fired; no field other
than the event list is written. -/
def ResetState (s : SessionEvState) : SessionEvState × Bool :=
  (UnregisterAll s, (UnregisterAll s).eventThreadId != 0)

/-- The tail of one iteration of JdwpState::Run after the inner request loop
exits (jdwp_main.cc:353-377): close the transport, drop ddmActive (with its
Dbg notifications), ResetState, Dbg::Disconnected, undo suspensions, and in
client mode clear `run` (the one-shot exit). Returns the session state, the
new run flag and whether ResetState warned. -/
def resetPath (server : Bool) (s : SessionEvState) (run : Bool) :
    SessionEvState × Bool × Bool :=
  ((ResetState { s with ddmActive := false }).1,
   (if server then run else false),
   (ResetState { s with ddmActive := false }).2)

/-- The observable events of JdwpState::Run, in program order: the transport
calls with their outcomes, Dbg::Connected / Dbg::Disconnected, the
attach_cond_ broadcast, transport close and ResetState. `procInOk aw` is a
successful processIncoming call after which awaitingHandshake reported
`aw`. -/
inductive Ev
  | acceptOk
  | acceptFail
  | establishOk
  | establishFail
  | dbgConnected
  | procInFail
  | procInOk (awaiting : Bool)
  | broadcastAttach
  | closeCall
  | resetCall
  | dbgDisconnected
deriving Repr, DecidableEq

/-- Environment answers for one iteration of the inner request loop:
Dbg::IsDisposed() at the loop head, the processIncoming result, and what
awaitingHandshake would report afterwards. -/
structure InnerStep where
  disposed : Bool
  piOk : Bool
  awaiting : Bool
deriving Repr, DecidableEq

/-- The inner request loop of JdwpState::Run (jdwp_main.cc:327-351): while
not disposed, processIncoming (break on failure); on the first success after
which the handshake is no longer awaited, record debugThreadId (the JDWP
own id of the JDWP thread, `selfId`) and broadcast attach_cond_. The environment
supplies one InnerStep per iteration; an exhausted list stands for
Dbg::IsDisposed() turning true. Returns the event trace and the
debugThreadId afterwards, given the flag `first` and the current id. -/
def innerLoop (selfId : Nat) : List InnerStep → Bool → Nat → List Ev × Nat
  | [], _, dtid => ([], dtid)
  | step :: rest, first, dtid =>
    if step.disposed then ([], dtid)
    else if !step.piOk then ([Ev.procInFail], dtid)
    else if first && !step.awaiting then
      (Ev.procInOk step.awaiting :: Ev.broadcastAttach ::
        (innerLoop selfId rest false selfId).1,
       (innerLoop selfId rest false selfId).2)
    else
      (Ev.procInOk step.awaiting :: (innerLoop selfId rest first dtid).1,
       (innerLoop selfId rest first dtid).2)

/-- Environment answers for one iteration of the outer connection loop:
whether the `run` flag is still observed set at the loop head (a concurrent
teardown may have cleared it), the accept/establish outcome, and the iterations of the inner
loop. -/
structure ConnAttempt where
  runObserved : Bool
  connectOk : Bool
  steps : List InnerStep
deriving Repr, DecidableEq

/-- The outer connection loop of JdwpState::Run (jdwp_main.cc:299-377).
In server mode a failed accept breaks out; in client mode a failed establish
broadcasts attach_cond_ and breaks out; a connection runs Dbg::Connected,
the inner loop, close, the reset path, and in client mode clears `run`
(one-shot). Returns the event trace, the final run flag and the final
debugThreadId. -/
def runLoop (server : Bool) (selfId : Nat) :
    List ConnAttempt → Bool → Nat → List Ev × Bool × Nat
  | [], run, dtid => ([], run, dtid)
  | a :: rest, run, dtid =>
    if !(run && a.runObserved) then ([], run && a.runObserved, dtid)
    else if server then
      if !a.connectOk then ([Ev.acceptFail], true, dtid)
      else
        (Ev.acceptOk :: Ev.dbgConnected ::
          (innerLoop selfId a.steps true dtid).1 ++
            Ev.closeCall :: Ev.resetCall :: Ev.dbgDisconnected ::
              (runLoop server selfId rest true (innerLoop selfId a.steps true dtid).2).1,
         (runLoop server selfId rest true (innerLoop selfId a.steps true dtid).2).2)
    else
      if !a.connectOk then ([Ev.establishFail, Ev.broadcastAttach], true, dtid)
      else
        (Ev.establishOk :: Ev.dbgConnected ::
          (innerLoop selfId a.steps true dtid).1 ++
            Ev.closeCall :: Ev.resetCall :: Ev.dbgDisconnected ::
              (runLoop server selfId rest false (innerLoop selfId a.steps true dtid).2).1,
         (runLoop server selfId rest false (innerLoop selfId a.steps true dtid).2).2)

/-- State of the claim-C1 trace checker: `norm b` (in or between connections,
`b` = a handshake broadcast already fired for the current connection),
`expectBroadcast fromE` (the previous event obliges an immediate broadcast;
`fromE` marks a failed client establish, after which the trace must end),
`ended` (thread must exit: nothing may follow), `bad` (claim violated). -/
inductive C1State
  | norm (bDone : Bool)
  | expectBroadcast (fromEstablishFail : Bool)
  | ended
  | bad
deriving Repr, DecidableEq

/-- One step of the claim-C1 trace checker. A broadcast is legal only when
obliged; a failed client establish obliges a broadcast and then the end of
the trace; the first handshake-completing processIncoming of a connection
obliges a broadcast; a failed server accept ends the trace without any
broadcast; Dbg::Connected opens a fresh connection. -/
def c1Step : C1State → Ev → C1State
  | C1State.bad, _ => C1State.bad
  | C1State.ended, _ => C1State.bad
  | C1State.expectBroadcast fromE, Ev.broadcastAttach =>
    if fromE then C1State.ended else C1State.norm true
  | C1State.expectBroadcast _, _ => C1State.bad
  | C1State.norm _, Ev.broadcastAttach => C1State.bad
  | C1State.norm _, Ev.dbgConnected => C1State.norm false
  | C1State.norm b, Ev.procInOk awaiting =>
    if !awaiting && !b then C1State.expectBroadcast false else C1State.norm b
  | C1State.norm _, Ev.establishFail => C1State.expectBroadcast true
  | C1State.norm _, Ev.acceptFail => C1State.ended
  | C1State.norm b, _ => C1State.norm b

/-- Does a full trace satisfy the broadcast discipline of claim C1? -/
def c1Accepts (tr : List Ev) : Bool :=
  match tr.foldl c1Step (C1State.norm false) with
  | C1State.norm _ => true
  | C1State.ended => true
  | _ => false

/-- Two locations compare equal exactly when they are the same location. -/
theorem jdwpLocationEq_iff_eq (a b : JdwpLocation) :
    jdwpLocationEq a b = true ↔ a = b := by
  cases a
  cases b
  simp only [jdwpLocationEq, Bool.and_eq_true, beq_iff_eq, JdwpLocation.mk.injEq]
  tauto

/-- C10: for all JdwpLocation values, operator== holds iff the four fields
idx, methodId, classId and typeTag are pairwise equal (and is therefore an
equivalence relation), and operator!= returns exactly its negation. -/
theorem c10_location_operator_eq :
    (∀ a b : JdwpLocation,
      (jdwpLocationEq a b = true ↔
        a.idx = b.idx ∧ a.methodId = b.methodId ∧ a.classId = b.classId ∧
          a.typeTag = b.typeTag) ∧
      jdwpLocationNe a b = !jdwpLocationEq a b) ∧
    Equivalence (fun a b : JdwpLocation => jdwpLocationEq a b = true) := by
  refine ⟨fun a b => ⟨?_, rfl⟩, ?_⟩
  · simp only [jdwpLocationEq, Bool.and_eq_true, beq_iff_eq, and_assoc]
  · constructor
    · intro x
      exact (jdwpLocationEq_iff_eq x x).mpr rfl
    · intro x y h
      exact (jdwpLocationEq_iff_eq _ _).mpr ((jdwpLocationEq_iff_eq _ _).mp h).symm
    · intro x y z h1 h2
      exact (jdwpLocationEq_iff_eq _ _).mpr
        (((jdwpLocationEq_iff_eq _ _).mp h1).trans ((jdwpLocationEq_iff_eq _ _).mp h2))

/-- C9: writePacket and writeBufferedPacket each perform exactly one
underlying (vectored) write covering the full packet, between taking and
releasing the socket lock, and return the ssize_t of that single write
unmodified; no retry write appears in the operation trace. -/
theorem c9_write_atomicity :
    ∀ (sock : Int) (replyLen : Nat) (iovLens : List Nat) (wr wvr : Int),
      (writePacket sock replyLen wr).2 = wr ∧
      (writePacket sock replyLen wr).1.filter isWriteOp =
        [SinkOp.syscallWrite sock replyLen] ∧
      (writePacket sock replyLen wr).1.head? = some SinkOp.lockSocket ∧
      (writePacket sock replyLen wr).1.getLast? = some SinkOp.unlockSocket ∧
      (writeBufferedPacket sock iovLens wvr).2 = wvr ∧
      (writeBufferedPacket sock iovLens wvr).1.filter isWriteOp =
        [SinkOp.syscallWritev sock iovLens.length iovLens.sum] ∧
      (writeBufferedPacket sock iovLens wvr).1.head? = some SinkOp.lockSocket ∧
      (writeBufferedPacket sock iovLens wvr).1.getLast? = some SinkOp.unlockSocket := by
  intro sock replyLen iovLens wr wvr
  refine ⟨rfl, ?_, rfl, rfl, rfl, ?_, rfl, rfl⟩ <;>
    simp [writePacket, writeBufferedPacket, isWriteOp]

/-- C7 counterexample: with a debugger connected, lastActivityWhen = 5 and
MilliTime() = 5 (a legal reading, since CHECK_GE(now, last) holds),
LastDebuggerActivity returns 0 although the timestamp does not hold the
reserved sentinel 0 — so "returns 0 exactly when the timestamp holds 0" is
false. -/
theorem c7_counterexample :
    LastDebuggerActivity true 5 5 = 0 ∧ (5 : Int) ≠ 0 ∧ (5 : Int) ≤ 5 := by
  refine ⟨?_, by decide, by decide⟩
  simp [LastDebuggerActivity]

/-- C7 amended: LastDebuggerActivity returns -1 exactly when no debugger is
connected; it returns 0 whenever the connected timestamp holds the sentinel
0; otherwise it returns now - timestamp, which is non-negative (and is
itself 0 whenever now equals the nonzero timestamp, so 0 is not returned
exclusively for the sentinel). -/
theorem c7_last_debugger_activity_amended :
    ∀ (connected : Bool) (last now : Int), last ≤ now →
      ((LastDebuggerActivity connected last now = -1 ↔ connected = false) ∧
       (connected = true → last = 0 → LastDebuggerActivity connected last now = 0) ∧
       (connected = true → last ≠ 0 →
         LastDebuggerActivity connected last now = now - last ∧
         0 ≤ LastDebuggerActivity connected last now)) := by
  intro connected last now hle
  cases connected with
  | false => simp [LastDebuggerActivity]
  | true =>
    by_cases h0 : last = 0
    · simp [LastDebuggerActivity, h0]
    · simp [LastDebuggerActivity, h0]
      omega

/-- C7 amended, witnessed at connected = true, last = 4, now = 9. -/
theorem c7_last_debugger_activity_amended_witness :
    (LastDebuggerActivity true 4 9 = -1 ↔ true = false) ∧
    (true = true → (4 : Int) = 0 → LastDebuggerActivity true 4 9 = 0) ∧
    (true = true → (4 : Int) ≠ 0 →
      LastDebuggerActivity true 4 9 = 9 - 4 ∧ 0 ≤ LastDebuggerActivity true 4 9) :=
  c7_last_debugger_activity_amended true 4 9 (by decide)

/-- C2 counterexample: a reset-path execution in server mode starting with
debugThreadId = 5 and eventThreadId = 7 leaves both untouched (and nonzero)
before the next accept call begins — the claim says both are cleared. -/
theorem c2_counterexample :
    (resetPath true
      { debugThreadId := 5, eventThreadId := 7, eventList := [3], ddmActive := false }
      true).1.debugThreadId = 5 ∧
    (resetPath true
      { debugThreadId := 5, eventThreadId := 7, eventList := [3], ddmActive := false }
      true).1.eventThreadId = 7 := ⟨rfl, rfl⟩

/-- C2 amended: on every execution of the reset path after the inner request
loop exits, the registered event list is cleared and a warning is logged
exactly when the event-in-progress marker is nonzero, but neither the
debug-thread identifier nor the event-in-progress marker is set to zero:
both keep their values into the next accept call. -/
theorem c2_reset_path_amended :
    ∀ (server : Bool) (s : SessionEvState) (run : Bool),
      (resetPath server s run).1.debugThreadId = s.debugThreadId ∧
      (resetPath server s run).1.eventThreadId = s.eventThreadId ∧
      (resetPath server s run).1.eventList = [] ∧
      ((resetPath server s run).2.2 = true ↔ s.eventThreadId ≠ 0) := by
  intro server s run
  refine ⟨rfl, rfl, rfl, ?_⟩
  simp [resetPath, ResetState, UnregisterAll]

/-- C6: with suspend-on-attach requested, Create returns a Session only when
IsActive() is true once the attach wait returns; and whenever startup
succeeded (so the wait actually happened: the call did not already die with
LOG(FATAL) on an unknown transport or return early on startup failure) but
the session is not active at that point, Create returns NULL after logging
the connection-failed error. -/
theorem c6_create_suspend_requires_active :
    ∀ (options : JdwpOptions) (haveAndroidOS startupOk activeAfterWait : Bool),
      options.suspend = true →
      ((Create options haveAndroidOS startupOk activeAfterWait = CreateResult.session →
        activeAfterWait = true) ∧
       (Create options haveAndroidOS startupOk activeAfterWait ≠ CreateResult.fatal →
        startupOk = true → activeAfterWait = false →
        Create options haveAndroidOS startupOk activeAfterWait =
          CreateResult.nullNoSession true)) := by
  intro options haveAndroidOS startupOk activeAfterWait hsuspend
  rcases options with ⟨t, sv, su⟩
  cases t <;> cases haveAndroidOS <;> cases startupOk <;> cases activeAfterWait <;>
    simp_all [Create]

/-- C6, witnessed: socket transport, server mode, suspend requested, startup
succeeded, session inactive when the wait returns — Create yields NULL with
the error logged. -/
theorem c6_create_suspend_requires_active_witness :
    (Create
        { transport := JdwpTransportType.kJdwpTransportSocket,
          server := true, suspend := true } false true false = CreateResult.session →
      false = true) ∧
    (Create
        { transport := JdwpTransportType.kJdwpTransportSocket,
          server := true, suspend := true } false true false ≠ CreateResult.fatal →
      true = true → false = false →
      Create
          { transport := JdwpTransportType.kJdwpTransportSocket,
            server := true, suspend := true } false true false =
        CreateResult.nullNoSession true) :=
  c6_create_suspend_requires_active
    { transport := JdwpTransportType.kJdwpTransportSocket,
      server := true, suspend := true } false true false rfl

/-- C8: teardown always ends with a null netState reference (and the final
CHECK passes); when a transport is bound its free routine is called; a
failed protocol-thread join changes nothing but the logged warning — the
final state, the free call and the check are identical whether the join
succeeded or failed, and the warning fires exactly on a started thread whose
join failed. The hypothesis is the constructor invariant that no netState
exists before a transport is bound. -/
theorem c8_teardown_invariant :
    ∀ (s : TeardownState) (joinOk : Bool),
      (s.transportBound = false → s.netState = false) →
      ((destructorJdwpState s joinOk).final.netState = false ∧
       (destructorJdwpState s joinOk).checkPassed = true ∧
       (s.transportBound = true → (destructorJdwpState s joinOk).freeCalled = true) ∧
       (destructorJdwpState s joinOk).joinWarning =
         (s.transportBound && (s.debug_thread_started && !joinOk)) ∧
       (destructorJdwpState s true).final = (destructorJdwpState s false).final ∧
       (destructorJdwpState s true).freeCalled =
         (destructorJdwpState s false).freeCalled ∧
       (destructorJdwpState s true).checkPassed =
         (destructorJdwpState s false).checkPassed) := by
  intro s joinOk hinv
  rcases s with ⟨tb, ns, c, dts, r⟩
  cases tb <;> cases ns <;> cases dts <;> cases joinOk <;>
    simp_all [destructorJdwpState]

/-- C8, witnessed: transport bound, netState live, connected, thread started,
join fails — netState ends null, the check passes, free is called, only the
warning records the failed join. -/
theorem c8_teardown_invariant_witness :
    ((destructorJdwpState
        { transportBound := true, netState := true, connected := true,
          debug_thread_started := true, run := true } false).final.netState = false ∧
     (destructorJdwpState
        { transportBound := true, netState := true, connected := true,
          debug_thread_started := true, run := true } false).checkPassed = true ∧
     (({ transportBound := true, netState := true, connected := true,
          debug_thread_started := true, run := true } : TeardownState).transportBound =
            true →
       (destructorJdwpState
          { transportBound := true, netState := true, connected := true,
            debug_thread_started := true, run := true } false).freeCalled = true) ∧
     (destructorJdwpState
        { transportBound := true, netState := true, connected := true,
          debug_thread_started := true, run := true } false).joinWarning =
       (({ transportBound := true, netState := true, connected := true,
            debug_thread_started := true, run := true } : TeardownState).transportBound &&
        (({ transportBound := true, netState := true, connected := true,
             debug_thread_started := true, run := true } : TeardownState).debug_thread_started &&
         !false)) ∧
     (destructorJdwpState
        { transportBound := true, netState := true, connected := true,
          debug_thread_started := true, run := true } true).final =
       (destructorJdwpState
          { transportBound := true, netState := true, connected := true,
            debug_thread_started := true, run := true } false).final ∧
     (destructorJdwpState
        { transportBound := true, netState := true, connected := true,
          debug_thread_started := true, run := true } true).freeCalled =
       (destructorJdwpState
          { transportBound := true, netState := true, connected := true,
            debug_thread_started := true, run := true } false).freeCalled ∧
     (destructorJdwpState
        { transportBound := true, netState := true, connected := true,
          debug_thread_started := true, run := true } true).checkPassed =
       (destructorJdwpState
          { transportBound := true, netState := true, connected := true,
            debug_thread_started := true, run := true } false).checkPassed) :=
  c8_teardown_invariant
    { transportBound := true, netState := true, connected := true,
      debug_thread_started := true, run := true } false (by decide)

/-- Step bound: the stored request counter stays below 2 ^ 32. -/
theorem nextRequestSerial_lt (s : Serials) :
    ((NextRequestSerial s).2).requestSerial < kUint32Mod :=
  Nat.mod_lt _ (by norm_num [kUint32Mod])

/-- Step bound: the stored event counter stays below 2 ^ 32. -/
theorem nextEventSerial_lt (s : Serials) :
    ((NextEventSerial s).2).eventSerial < kUint32Mod :=
  Nat.mod_lt _ (by norm_num [kUint32Mod])

/-- Closed form of the request-serial outputs: the k-th value returned by
NextRequestSerial over any call sequence is the starting counter plus k,
mod 2 ^ 32. -/
theorem runSerials_req_values (calls : List SerialCall) (s : Serials)
    (h : s.requestSerial < kUint32Mod) :
    (runSerials calls s).1 =
      (List.range (calls.count SerialCall.req)).map
        (fun i => (s.requestSerial + i) % kUint32Mod) := by
  induction calls generalizing s with
  | nil => simp [runSerials]
  | cons c rest ih =>
    cases c with
    | req =>
      rw [show (runSerials (SerialCall.req :: rest) s).1 =
            (NextRequestSerial s).1 :: (runSerials rest (NextRequestSerial s).2).1 from rfl,
        ih _ (nextRequestSerial_lt s)]
      simp only [NextRequestSerial, List.count_cons_self, List.range_succ_eq_map,
        List.map_cons, List.map_map]
      refine List.cons_eq_cons.mpr ⟨?_, ?_⟩
      · exact (by rw [Nat.add_zero, Nat.mod_eq_of_lt h])
      · refine List.map_congr_left ?_
        intro i _
        simp only [Function.comp]
        rw [Nat.mod_add_mod]
        congr 1
        omega
    | evt =>
      have hkeep : ((NextEventSerial s).2).requestSerial = s.requestSerial := rfl
      simp only [runSerials, ih _ (by rw [hkeep]; exact h), hkeep]
      have : (SerialCall.evt :: rest).count SerialCall.req = rest.count SerialCall.req := by
        simp [List.count_cons]
      rw [this]

/-- Closed form of the event-serial outputs. -/
theorem runSerials_evt_values (calls : List SerialCall) (s : Serials)
    (h : s.eventSerial < kUint32Mod) :
    (runSerials calls s).2.1 =
      (List.range (calls.count SerialCall.evt)).map
        (fun i => (s.eventSerial + i) % kUint32Mod) := by
  induction calls generalizing s with
  | nil => simp [runSerials]
  | cons c rest ih =>
    cases c with
    | evt =>
      rw [show (runSerials (SerialCall.evt :: rest) s).2.1 =
            (NextEventSerial s).1 :: (runSerials rest (NextEventSerial s).2).2.1 from rfl,
        ih _ (nextEventSerial_lt s)]
      simp only [NextEventSerial, List.count_cons_self, List.range_succ_eq_map,
        List.map_cons, List.map_map]
      refine List.cons_eq_cons.mpr ⟨?_, ?_⟩
      · exact (by rw [Nat.add_zero, Nat.mod_eq_of_lt h])
      · refine List.map_congr_left ?_
        intro i _
        simp only [Function.comp]
        rw [Nat.mod_add_mod]
        congr 1
        omega
    | req =>
      have hkeep : ((NextRequestSerial s).2).eventSerial = s.eventSerial := rfl
      simp only [runSerials, ih _ (by rw [hkeep]; exact h), hkeep]
      have : (SerialCall.req :: rest).count SerialCall.evt = rest.count SerialCall.evt := by
        simp [List.count_cons]
      rw [this]

/-- Reading an entry of a mapped range: the index is in range and the value
is the function at the index. -/
theorem getElem_range_map {n i v : Nat} {f : Nat → Nat}
    (h : ((List.range n).map f)[i]? = some v) : i < n ∧ v = f i := by
  by_cases hin : i < n
  · rw [List.getElem?_map, List.getElem?_range hin] at h
    simp only [Option.map_some'] at h
    exact ⟨hin, (Option.some.injEq _ _ ▸ h).symm⟩
  · rw [List.getElem?_map] at h
    have hnone : (List.range n)[i]? = none := by
      rw [List.getElem?_eq_none]
      simpa using Nat.le_of_not_lt hin
    rw [hnone] at h
    simp at h

/-- Distinctness and conditional monotonicity of the values (B + k) % W read
out of a mapped range. -/
theorem rangeMapMod_facts {B W n i j vi vj : Nat} (hij : i < j)
    (h1 : ((List.range n).map (fun k => (B + k) % W))[i]? = some vi)
    (h2 : ((List.range n).map (fun k => (B + k) % W))[j]? = some vj) :
    (n ≤ W → vi ≠ vj) ∧ (B + n ≤ W → vi < vj) := by
  obtain ⟨hi, hvi⟩ := getElem_range_map h1
  obtain ⟨hj, hvj⟩ := getElem_range_map h2
  constructor
  · intro hn heq
    have hmod : (B + i) % W = (B + j) % W := by rw [← hvi, ← hvj, heq]
    have hcancel : i % W = j % W := Nat.ModEq.add_left_cancel' B hmod
    rw [Nat.mod_eq_of_lt (by omega), Nat.mod_eq_of_lt (by omega)] at hcancel
    omega
  · intro hBn
    rw [hvi, hvj, Nat.mod_eq_of_lt (by omega), Nat.mod_eq_of_lt (by omega)]
    omega

/-- C4 counterexample: a sequential run of 4026531841 < 2 ^ 32 request-serial
calls returns 4294967295 at call index 4026531839 and 0 at the later call
index 4026531840 — the uint32_t counter wraps, so the returned values are
not strictly increasing in call order as the claim states. -/
theorem c4_counterexample :
    (List.replicate 4026531841 SerialCall.req).count SerialCall.req < kUint32Mod ∧
    (runSerials (List.replicate 4026531841 SerialCall.req) initSerials).1[4026531839]? =
      some 4294967295 ∧
    (runSerials (List.replicate 4026531841 SerialCall.req) initSerials).1[4026531840]? =
      some 0 ∧
    4026531839 < 4026531840 ∧ ¬ (4294967295 < 0) := by
  have hcf := runSerials_req_values (List.replicate 4026531841 SerialCall.req)
    initSerials (by norm_num [initSerials, kUint32Mod])
  rw [List.count_replicate_self] at hcf
  refine ⟨?_, ?_, ?_, by norm_num, by norm_num⟩
  · rw [List.count_replicate_self]
    norm_num [kUint32Mod]
  · rw [hcf, List.getElem?_map, List.getElem?_range (by norm_num)]
    simp only [Option.map_some']
    norm_num [initSerials, kUint32Mod]
  · rw [hcf, List.getElem?_map, List.getElem?_range (by norm_num)]
    simp only [Option.map_some']
    norm_num [initSerials, kUint32Mod]

/-- C4 amended: NextRequestSerial and NextEventSerial each return the
pre-increment counter and store the counter incremented by one modulo
2 ^ 32, leaving the other counter untouched; over any call sequence the
values one counter returns are pairwise distinct while at most 2 ^ 32 calls
are made to it, and they are strictly increasing in call order as long as
the counter does not wrap (for sequences of at most 2 ^ 32 minus the base
value calls). -/
theorem c4_serials_amended :
    (∀ s : Serials,
      (NextRequestSerial s).1 = s.requestSerial ∧
      (NextRequestSerial s).2.requestSerial = (s.requestSerial + 1) % kUint32Mod ∧
      (NextRequestSerial s).2.eventSerial = s.eventSerial ∧
      (NextEventSerial s).1 = s.eventSerial ∧
      (NextEventSerial s).2.eventSerial = (s.eventSerial + 1) % kUint32Mod ∧
      (NextEventSerial s).2.requestSerial = s.requestSerial) ∧
    (∀ (calls : List SerialCall) (i j vi vj : Nat),
      i < j →
      ((runSerials calls initSerials).1[i]? = some vi →
       (runSerials calls initSerials).1[j]? = some vj →
       (calls.count SerialCall.req ≤ kUint32Mod → vi ≠ vj) ∧
       (0x10000000 + calls.count SerialCall.req ≤ kUint32Mod → vi < vj)) ∧
      ((runSerials calls initSerials).2.1[i]? = some vi →
       (runSerials calls initSerials).2.1[j]? = some vj →
       (calls.count SerialCall.evt ≤ kUint32Mod → vi ≠ vj) ∧
       (0x20000000 + calls.count SerialCall.evt ≤ kUint32Mod → vi < vj))) := by
  constructor
  · intro s
    exact ⟨rfl, rfl, rfl, rfl, rfl, rfl⟩
  · intro calls i j vi vj hij
    constructor
    · intro h1 h2
      rw [runSerials_req_values calls initSerials
        (by norm_num [initSerials, kUint32Mod])] at h1 h2
      have hB : initSerials.requestSerial = 0x10000000 := rfl
      rw [hB] at h1 h2
      exact rangeMapMod_facts hij h1 h2
    · intro h1 h2
      rw [runSerials_evt_values calls initSerials
        (by norm_num [initSerials, kUint32Mod])] at h1 h2
      have hB : initSerials.eventSerial = 0x20000000 := rfl
      rw [hB] at h1 h2
      exact rangeMapMod_facts hij h1 h2

/-- C5 counterexample: after 268435457 request calls and one event call, the
request value returned at call index 268435456 is 0x20000000 = 536870912,
which is exactly the value the first event call returns — a request serial
equal to an event serial, contradicting the claim that the two counters
never return a common value over any sequence of calls. -/
theorem c5_counterexample :
    (runSerials (List.replicate 268435457 SerialCall.req ++ [SerialCall.evt])
      initSerials).1[268435456]? = some 536870912 ∧
    (runSerials (List.replicate 268435457 SerialCall.req ++ [SerialCall.evt])
      initSerials).2.1[0]? = some 536870912 := by
  have hreq : (List.replicate 268435457 SerialCall.req ++ [SerialCall.evt]).count
      SerialCall.req = 268435457 := by
    rw [List.count_append, List.count_replicate_self]
    rfl
  have hevt : (List.replicate 268435457 SerialCall.req ++ [SerialCall.evt]).count
      SerialCall.evt = 1 := by
    rw [List.count_append, List.count_replicate]
    rfl
  constructor
  · rw [runSerials_req_values _ initSerials (by norm_num [initSerials, kUint32Mod]),
      hreq, List.getElem?_map, List.getElem?_range (by norm_num)]
    simp only [Option.map_some']
    norm_num [initSerials, kUint32Mod]
  · rw [runSerials_evt_values _ initSerials (by norm_num [initSerials, kUint32Mod]),
      hevt, List.getElem?_map, List.getElem?_range (by norm_num)]
    simp only [Option.map_some']
    norm_num [initSerials, kUint32Mod]

/-- C5 amended: the request counter starts at 0x10000000 and the event
counter at the distinct base 0x20000000; as long as at most 0x10000000
request calls and at most 0xE0000000 event calls are made (so neither
counter leaves its disjoint range or wraps), no request value equals any
event value and neither counter returns 0. Beyond those bounds the 32-bit
wraparound lets the counters collide and reach 0. -/
theorem c5_serial_bases_amended :
    initSerials.requestSerial = 0x10000000 ∧
    initSerials.eventSerial = 0x20000000 ∧
    initSerials.requestSerial ≠ initSerials.eventSerial ∧
    (∀ (calls : List SerialCall) (v w : Nat),
      calls.count SerialCall.req ≤ 0x10000000 →
      calls.count SerialCall.evt ≤ 0xE0000000 →
      v ∈ (runSerials calls initSerials).1 →
      w ∈ (runSerials calls initSerials).2.1 →
      v ≠ w ∧ v ≠ 0 ∧ w ≠ 0) := by
  refine ⟨rfl, rfl, by norm_num [initSerials], ?_⟩
  intro calls v w hcr hce hv hw
  rw [runSerials_req_values calls initSerials (by norm_num [initSerials, kUint32Mod])] at hv
  rw [runSerials_evt_values calls initSerials (by norm_num [initSerials, kUint32Mod])] at hw
  obtain ⟨i, hi, hfi⟩ := List.mem_map.mp hv
  obtain ⟨j, hj, hfj⟩ := List.mem_map.mp hw
  rw [List.mem_range] at hi hj
  have hB1 : initSerials.requestSerial = 0x10000000 := rfl
  have hB2 : initSerials.eventSerial = 0x20000000 := rfl
  rw [hB1] at hfi
  rw [hB2] at hfj
  have hv2 : v = 0x10000000 + i := by
    rw [← hfi, Nat.mod_eq_of_lt (by norm_num [kUint32Mod]; omega)]
  have hw2 : w = 0x20000000 + j := by
    rw [← hfj, Nat.mod_eq_of_lt (by norm_num [kUint32Mod]; omega)]
  omega

/-- The checker stays in a `norm` state across any inner-loop trace, entered
with the broadcast-done flag matching the negation of `first`. -/
theorem c1_innerLoop_fold (selfId : Nat) (steps : List InnerStep) (first : Bool)
    (dtid : Nat) :
    ∃ b, ((innerLoop selfId steps first dtid).1).foldl c1Step (C1State.norm (!first)) =
      C1State.norm b := by
  induction steps generalizing first dtid with
  | nil => exact ⟨!first, rfl⟩
  | cons step rest ih =>
    cases hd : step.disposed with
    | true => exact ⟨!first, by simp [innerLoop, hd]⟩
    | false =>
      cases hpi : step.piOk with
      | false => exact ⟨!first, by simp [innerLoop, hd, hpi, c1Step]⟩
      | true =>
        cases hf : first with
        | false =>
          obtain ⟨b, hfold⟩ := ih false dtid
          rw [Bool.not_false] at hfold
          refine ⟨b, ?_⟩
          simp [innerLoop, hd, hpi, c1Step, hfold]
        | true =>
          cases ha : step.awaiting with
          | false =>
            obtain ⟨b, hfold⟩ := ih false selfId
            rw [Bool.not_false] at hfold
            refine ⟨b, ?_⟩
            simp [innerLoop, hd, hpi, ha, c1Step, hfold]
          | true =>
            obtain ⟨b, hfold⟩ := ih true dtid
            rw [Bool.not_true] at hfold
            refine ⟨b, ?_⟩
            simp [innerLoop, hd, hpi, ha, c1Step, hfold]

/-- The checker ends every outer-loop trace in an accepting state (`norm` or
`ended`), from any `norm` start. -/
theorem c1_runLoop_fold (server : Bool) (selfId : Nat) (attempts : List ConnAttempt)
    (run : Bool) (dtid : Nat) (b : Bool) :
    (∃ b2, ((runLoop server selfId attempts run dtid).1).foldl c1Step (C1State.norm b) =
      C1State.norm b2) ∨
    ((runLoop server selfId attempts run dtid).1).foldl c1Step (C1State.norm b) =
      C1State.ended := by
  induction attempts generalizing run dtid b with
  | nil => exact Or.inl ⟨b, rfl⟩
  | cons a rest ih =>
    cases hg : (run && a.runObserved) with
    | false => exact Or.inl ⟨b, by simp [runLoop, hg]⟩
    | true =>
      cases hs : server with
      | true =>
        cases hc : a.connectOk with
        | false =>
          right
          simp [runLoop, hg, hc, c1Step]
        | true =>
          obtain ⟨bi, hinner⟩ := c1_innerLoop_fold selfId a.steps true dtid
          rw [Bool.not_true] at hinner
          rcases ih true (innerLoop selfId a.steps true dtid).2 bi with ⟨b2, h2⟩ | h2
          · rw [hs] at h2
            exact Or.inl ⟨b2, by
              simp [runLoop, hg, hc, List.foldl_append, c1Step, hinner, h2]⟩
          · rw [hs] at h2
            exact Or.inr (by
              simp [runLoop, hg, hc, List.foldl_append, c1Step, hinner, h2])
      | false =>
        cases hc : a.connectOk with
        | false =>
          right
          simp [runLoop, hg, hc, c1Step]
        | true =>
          obtain ⟨bi, hinner⟩ := c1_innerLoop_fold selfId a.steps true dtid
          rw [Bool.not_true] at hinner
          rcases ih false (innerLoop selfId a.steps true dtid).2 bi with ⟨b2, h2⟩ | h2
          · rw [hs] at h2
            exact Or.inl ⟨b2, by
              simp [runLoop, hg, hc, List.foldl_append, c1Step, hinner, h2]⟩
          · rw [hs] at h2
            exact Or.inr (by
              simp [runLoop, hg, hc, List.foldl_append, c1Step, hinner, h2])

/-- C1: every trace of the protocol thread loop satisfies the attach
broadcast discipline: attach_cond_ is broadcast exactly (a) immediately
after a failed client-mode establish, after which the thread exits the
connection loop, and (b) once per connection, immediately after the first
processIncoming call following which the handshake is no longer awaited; a
failed server-mode accept ends the trace with no broadcast. -/
theorem c1_attach_broadcast_discipline :
    ∀ (server : Bool) (selfId : Nat) (attempts : List ConnAttempt) (dtid : Nat),
      c1Accepts (runLoop server selfId attempts true dtid).1 = true := by
  intro server selfId attempts dtid
  rcases c1_runLoop_fold server selfId attempts true dtid false with ⟨b2, h⟩ | h <;>
    simp [c1Accepts, h]

/-- Once the run flag is false the outer loop does nothing more: no events,
run stays false, debugThreadId untouched. -/
theorem runLoop_not_running (server : Bool) (selfId : Nat) (rest : List ConnAttempt)
    (d : Nat) :
    (runLoop server selfId rest false d).1 = [] ∧
    (runLoop server selfId rest false d).2.1 = false ∧
    (runLoop server selfId rest false d).2.2 = d := by
  cases rest <;> simp [runLoop]

/-- C3: after a connection is processed and the reset path completes, the
client-mode thread has cleared the run flag and exits the outer loop (its
trace is the single-connection trace, independent of any further environment
attempts), while the server-mode thread continues with the remaining
attempts and its continuation begins with a new accept call exactly when the
run flag is still observed set, and is empty when the flag was cleared. -/
theorem c3_reset_then_loop_or_exit :
    ∀ (selfId dtid : Nat) (a b : ConnAttempt) (rest rest2 : List ConnAttempt),
      a.runObserved = true → a.connectOk = true →
      ((runLoop false selfId (a :: rest) true dtid).2.1 = false ∧
       (runLoop false selfId (a :: rest) true dtid).1 =
         (runLoop false selfId (a :: rest2) true dtid).1 ∧
       (runLoop false selfId (a :: rest) true dtid).1 =
         Ev.establishOk :: Ev.dbgConnected ::
           (innerLoop selfId a.steps true dtid).1 ++
             [Ev.closeCall, Ev.resetCall, Ev.dbgDisconnected] ∧
       (runLoop true selfId (a :: b :: rest) true dtid).1 =
         Ev.acceptOk :: Ev.dbgConnected ::
           (innerLoop selfId a.steps true dtid).1 ++
             Ev.closeCall :: Ev.resetCall :: Ev.dbgDisconnected ::
               (runLoop true selfId (b :: rest) true
                 (innerLoop selfId a.steps true dtid).2).1 ∧
       (b.runObserved = true →
         (runLoop true selfId (b :: rest) true
             (innerLoop selfId a.steps true dtid).2).1.head? =
           some (if b.connectOk then Ev.acceptOk else Ev.acceptFail)) ∧
       (b.runObserved = false →
         (runLoop true selfId (b :: rest) true
           (innerLoop selfId a.steps true dtid).2).1 = [])) := by
  intro selfId dtid a b rest rest2 hobs hconn
  refine ⟨?_, ?_, ?_, ?_, ?_, ?_⟩
  · simp [runLoop, hobs, hconn, (runLoop_not_running false selfId rest _).2.1]
  · simp [runLoop, hobs, hconn, (runLoop_not_running false selfId rest _).1,
      (runLoop_not_running false selfId rest2 _).1]
  · simp [runLoop, hobs, hconn, (runLoop_not_running false selfId rest _).1]
  · simp [runLoop, hobs, hconn]
  · intro hb
    cases hc : b.connectOk <;> simp [runLoop, hb, hc]
  · intro hb
    simp [runLoop, hb]

/-- C3, witnessed at a trivial connection (no inner steps) followed by an
observed-run attempt whose accept fails. -/
theorem c3_reset_then_loop_or_exit_witness :
    (runLoop false 9
        [{ runObserved := true, connectOk := true, steps := [] }] true 0).2.1 = false ∧
    (runLoop false 9
        [{ runObserved := true, connectOk := true, steps := [] }] true 0).1 =
      (runLoop false 9
          [{ runObserved := true, connectOk := true, steps := [] },
           { runObserved := true, connectOk := false, steps := [] }] true 0).1 ∧
    (runLoop false 9
        [{ runObserved := true, connectOk := true, steps := [] }] true 0).1 =
      Ev.establishOk :: Ev.dbgConnected ::
        (innerLoop 9 [] true 0).1 ++
          [Ev.closeCall, Ev.resetCall, Ev.dbgDisconnected] ∧
    (runLoop true 9
        [{ runObserved := true, connectOk := true, steps := [] },
         { runObserved := true, connectOk := false, steps := [] }] true 0).1 =
      Ev.acceptOk :: Ev.dbgConnected ::
        (innerLoop 9 [] true 0).1 ++
          Ev.closeCall :: Ev.resetCall :: Ev.dbgDisconnected ::
            (runLoop true 9
              [{ runObserved := true, connectOk := false, steps := [] }] true
              (innerLoop 9 [] true 0).2).1 ∧
    (true = true →
      (runLoop true 9
          [{ runObserved := true, connectOk := false, steps := [] }] true
          (innerLoop 9 [] true 0).2).1.head? =
        some (if false then Ev.acceptOk else Ev.acceptFail)) ∧
    (true = false →
      (runLoop true 9
        [{ runObserved := true, connectOk := false, steps := [] }] true
        (innerLoop 9 [] true 0).2).1 = []) :=
  c3_reset_then_loop_or_exit 9 0
    { runObserved := true, connectOk := true, steps := [] }
    { runObserved := true, connectOk := false, steps := [] }
    [] [{ runObserved := true, connectOk := false, steps := [] }] rfl rfl
